import Mathlib

/-!
# Verification of the DocSpace JS SDK message bus and instance lifecycle

Shallow embedding of the core of `src/instance/index.ts` (class `SDKInstance`)
and `src/sdk/index.ts` (class `SDK`) of the `docspace-sdk-js` repository,
together with the constants of `src/constants/index.ts`.

JavaScript runtime values are modelled by `JSVal`; JS exceptions are modelled
by the explicit `Option JSError` component of each step result; host-supplied
functions (method callbacks, event handlers such as `onAppError`) are
represented by opaque tokens whose behaviour (normal return or throw) is a
parameter of the semantics.  The browser primitive `JSON.parse` is a parameter
`parse : String → Option JSVal` (`none` models a thrown `SyntaxError`;
`JSON.parse` can never produce `undefined`, and a Lean model of a concrete
parse oracle is given for witnesses).  Observable effects (messages posted to
the iframe, host handler invocations, console output) are recorded as
`Action`s.
-/

/-- A JavaScript runtime value.  `fn` is an opaque function value identified
by a token; `obj` is a field list interpreted with *last-binding-wins* lookup,
so that object spread `\x7b...a, ...b\x7d` is faithfully modelled by list append
(later bindings shadow earlier ones exactly as later spreads do in JS). -/
inductive JSVal where
  | null
  | undefined
  | bool (b : Bool)
  | num (n : Int)
  | str (s : String)
  | fn (tok : Nat)
  | arr (elems : List JSVal)
  | obj (fields : List (String × JSVal))

/-- A JS exception.  `typeError` models `TypeError` raised by property access
on `null`/`undefined` or calling a non-function; `hostError` models an
exception thrown by a host-supplied callback or handler. -/
inductive JSError where
  | typeError (msg : String)
  | hostError (tok : Nat) (msg : String)
deriving DecidableEq, Repr

namespace JSVal

/-- JS strict equality `===` restricted to the comparisons the SDK performs.
Primitives compare by value.  Objects, arrays and functions compare by
*reference*; every such comparison in the embedded code pits a freshly parsed
value against a configuration value, which are never the same reference, so
the model soundly returns `false` for all non-primitive pairs. -/
def strictEq : JSVal → JSVal → Bool
  | .null, .null => true
  | .undefined, .undefined => true
  | .bool a, .bool b => a == b
  | .num a, .num b => a == b
  | .str a, .str b => a == b
  | _, _ => false

/-- JS truthiness (`NaN` does not arise in the embedded code). -/
def truthy : JSVal → Bool
  | .null => false
  | .undefined => false
  | .bool b => b
  | .num n => n != 0
  | .str s => s != ""
  | _ => true

/-- Last-binding-wins field lookup, matching the JS semantics of object
literals and spreads under the append representation of `obj`. -/
def lookupField (fields : List (String × JSVal)) (k : String) : Option JSVal :=
  match fields.reverse.find? (fun p => p.1 == k) with
  | some p => some p.2
  | none => none

/-- JS property read `v[k]`: throws `TypeError` on `null`/`undefined`,
returns `undefined` for missing fields and for primitive receivers
(primitive boxes carry none of the fields the SDK reads). -/
def getProp : JSVal → String → Except JSError JSVal
  | .null, k => .error (.typeError ("Cannot read properties of null (reading " ++ k ++ ")"))
  | .undefined, k => .error (.typeError ("Cannot read properties of undefined (reading " ++ k ++ ")"))
  | .obj fields, k =>
      .ok (match lookupField fields k with
        | some v => v
        | none => .undefined)
  | _, _ => .ok .undefined

/-- Property read on a value known to be an object (used where the receiver
is the instance's configuration record, which is constructed as an object). -/
def objGet : JSVal → String → JSVal
  | .obj fields, k =>
      (match lookupField fields k with
        | some v => v
        | none => .undefined)
  | _, _ => .undefined

/-- The own enumerable fields a value contributes under object spread.
Spreading `null`/`undefined`/primitives contributes nothing (the index
properties contributed by spreading a string never occur in the SDK, which
only spreads configuration records). -/
def spreadFields : JSVal → List (String × JSVal)
  | .obj fields => fields
  | _ => []

/-- JS object spread `\x7b...a, ...b\x7d` under the append representation. -/
def jsSpread (a b : JSVal) : JSVal :=
  .obj (spreadFields a ++ spreadFields b)

/-- JS property assignment `v.k = x` on an object, as an appended binding
(last-binding-wins lookup makes this extensionally the JS update). -/
def jsSet (v : JSVal) (k : String) (x : JSVal) : JSVal :=
  .obj (spreadFields v ++ [(k, x)])

/-- JS `ToString` coercion for the values that can reach `innerHTML`
assignment in the embedded code. -/
def jsToString : JSVal → String
  | .null => "null"
  | .undefined => "undefined"
  | .bool b => if b then "true" else "false"
  | .num n => toString n
  | .str s => s
  | .fn _ => "function"
  | .arr _ => ""
  | .obj _ => "[object Object]"

end JSVal

open JSVal

namespace DocSpace

/-! ## Constants (`src/constants/index.ts`) -/

/-- `connectErrorText` from `src/constants/index.ts`. -/
def connectErrorText : String := "Message bus is not connected with frame"

/-- `FRAME_NAME` from `src/constants/index.ts`. -/
def FRAME_NAME : String := "frameDocSpace"

/-- `defaultConfig` from `src/constants/index.ts`, with the enum members of
`src/enums/index.ts` replaced by their string values
(e.g. `SDKMode.Manager = "manager"`, `Theme.System = "System"`,
`EditorType.Desktop = "desktop"`, `FilterSortBy.ModifiedDate = "DateAndTime"`). -/
def defaultConfig : JSVal := .obj [
  ("src", .str ""),
  ("rootPath", .str "/rooms/shared/"),
  ("requestToken", .null),
  ("width", .str "100%"),
  ("height", .str "100%"),
  ("name", .str FRAME_NAME),
  ("type", .str "desktop"),
  ("frameId", .str "ds-frame"),
  ("mode", .str "manager"),
  ("id", .null),
  ("locale", .null),
  ("theme", .str "System"),
  ("editorType", .str "desktop"),
  ("editorGoBack", .bool true),
  ("selectorType", .str "all"),
  ("showSelectorCancel", .bool false),
  ("showSelectorHeader", .bool false),
  ("showHeader", .bool false),
  ("showHeaderBanner", .str "none"),
  ("showTitle", .bool true),
  ("showMenu", .bool false),
  ("showFilter", .bool false),
  ("showSignOut", .bool true),
  ("destroyText", .str ""),
  ("viewAs", .str "row"),
  ("viewTableColumns", .str "Name,Size,Type,Tags"),
  ("checkCSP", .bool true),
  ("disableActionButton", .bool false),
  ("showSettings", .bool false),
  ("waiting", .bool false),
  ("withSearch", .bool true),
  ("withBreadCrumbs", .bool true),
  ("withSubtitle", .bool true),
  ("filterParam", .str "ALL"),
  ("buttonColor", .str "#5299E0"),
  ("infoPanelVisible", .bool true),
  ("downloadToEvent", .bool false),
  ("filter", .obj [
    ("count", .str "100"),
    ("page", .str "1"),
    ("sortOrder", .str "descending"),
    ("sortBy", .str "DateAndTime"),
    ("search", .str ""),
    ("withSubfolders", .bool false)]),
  ("editorCustomization", .obj []),
  ("events", .obj [
    ("onSelectCallback", .null),
    ("onCloseCallback", .null),
    ("onAppReady", .null),
    ("onAppError", .null),
    ("onEditorCloseCallback", .null),
    ("onAuthSuccess", .null),
    ("onSignOut", .null),
    ("onDownload", .null),
    ("onNoAccess", .null),
    ("onNotFound", .null),
    ("onContentReady", .null)])]

/-! ## Instance state and observable actions -/

/-- The outbound `TTask` record `\x7btype: "method", methodName, data\x7d`
(`src/types/index.ts`). -/
structure TTask where
  type : String
  methodName : String
  data : JSVal

/-- Observable effects of the embedded code: a message posted into the
iframe's content window, a pending-call callback invocation, a host handler
invocation (event handlers, `onAppError`), console output, and a command
dispatched onto the instance by name. -/
inductive Action where
  | posted (frameId : String) (task : TTask)
  | callbackInvoked (tok : Nat) (arg : JSVal)
  | hostCalled (tok : Nat) (arg : JSVal)
  | consoleWarn (msg : String)
  | consoleError (msg : String)
  | commandInvoked (name : String) (arg : JSVal)

/-- The private per-instance fields of `SDKInstance`:
`#isConnected`, `#callbacks` (callbacks as opaque tokens), `#tasks`,
`#classNames`, and the public `config`. -/
structure InstanceState where
  isConnected : Bool
  callbacks : List Nat
  tasks : List TTask
  classNames : String
  config : JSVal

/-- Result of one synchronous step of the embedded code: the updated
instance fields, the emitted observable actions in order, and the JS
exception left uncaught by the step, if any. -/
structure StepResult where
  state : InstanceState
  actions : List Action
  thrown : Option JSError

/-- Behaviour of host-supplied functions (method callbacks, event handlers,
`onAppError`): invoking token `tok` with argument `v` either returns normally
(`none`) or throws (`some e`). -/
def HostEnv :=
  Nat → JSVal → Option JSError

/-- Which frame ids currently resolve, via `document.getElementById`, to an
iframe whose `contentWindow` is available. -/
def DomEnv :=
  String → Bool

/-! ## The message bus of `SDKInstance` (`src/instance/index.ts`) -/

/-- `#sendMessage`: looks the iframe up by the configured `frameId` and, when
its `contentWindow` is available, posts the serialized envelope
`\x7bframeId, type: "", data: message\x7d`.  The posted action records the
envelope's `frameId` and task; the JSON serialization itself (with functions
replaced by their source text) is not observed by any claim.  The
configuration is constructed as an object record, so the `frameId` read
cannot throw. -/
def sendMessage (dom : DomEnv) (s : InstanceState) (message : TTask) : List Action :=
  match objGet s.config "frameId" with
  | .str fid => if dom fid then [.posted fid message] else []
  | _ => []

/-- `#parseMessageData`: `JSON.parse` inside `try`/`catch`; a parse failure
is logged with `console.warn` and replaced by the synthetic error envelope
`\x7bframeId: "error", type: MessageTypes.Error, commandName:
"parseMessageData", error: \x7bmessage: "Invalid message format"\x7d\x7d`. -/
def parseMessageData (parse : String → Option JSVal) (data : String) :
    JSVal × List Action :=
  match parse data with
  | some v => (v, [])
  | none =>
      (.obj [("frameId", .str "error"),
             ("type", .str "error"),
             ("commandName", .str "parseMessageData"),
             ("error", .obj [("message", .str "Invalid message format")])],
       [.consoleWarn "Failed to parse message:"])

/-- `#handleError`: `console.error("SDK Error:", error)` followed by
`this.config.events?.onAppError?.(error.message)`.  The optional chain
short-circuits on a nullish `events` record or a nullish `onAppError`;
calling a non-function member throws; an exception thrown by the host's
`onAppError` propagates (there is no `try`/`catch` here). -/
def handleError (host : HostEnv) (s : InstanceState) (error : JSVal) :
    List Action × Option JSError :=
  let base := [Action.consoleError "SDK Error:"]
  let events := objGet s.config "events"
  match events with
  | .null => (base, none)
  | .undefined => (base, none)
  | ev =>
    match objGet ev "onAppError" with
    | .null => (base, none)
    | .undefined => (base, none)
    | .fn tok =>
        match getProp error "message" with
        | .error e => (base, some e)
        | .ok msg => (base ++ [.hostCalled tok msg], host tok msg)
    | _ =>
        match getProp error "message" with
        | .error e => (base, some e)
        | .ok _ =>
            (base, some (.typeError "onAppError is not a function"))

/-- The task-send tail of `#handleMethodResponse`:
`if (this.#tasks.length > 0) \x7b this.#sendMessage(this.#tasks.shift()!) \x7d`. -/
def sendNextTask (dom : DomEnv) (s : InstanceState) : StepResult :=
  match s.tasks with
  | [] => ⟨s, [], none⟩
  | t :: ts =>
      let s1 := { s with tasks := ts }
      ⟨s1, sendMessage dom s1 t, none⟩

/-- `#handleMethodResponse`: shifts the oldest callback off the queue and
invokes it (via optional call `callback?.(...)`) with
`data.methodReturnData` exactly as read — there is no defaulting of a
missing value and no `try`/`catch` around the invocation, so a callback
exception propagates and skips the task-send tail. -/
def handleMethodResponse (host : HostEnv) (dom : DomEnv) (s : InstanceState)
    (data : JSVal) : StepResult :=
  match s.callbacks with
  | [] => sendNextTask dom s
  | cb :: rest =>
      let s1 := { s with callbacks := rest }
      match getProp data "methodReturnData" with
      | .error e => ⟨s1, [], some e⟩
      | .ok mrd =>
          match host cb mrd with
          | some err => ⟨s1, [.callbackInvoked cb mrd], some err⟩
          | none =>
              let r := sendNextTask dom s1
              ⟨r.state, .callbackInvoked cb mrd :: r.actions, r.thrown⟩

/-- `#processEvent`: returns unless `eventData?.event` is truthy, looks the
handler up in `config.events`, and invokes it inside `try`/`catch`, logging a
handler exception with `console.error`. -/
def processEvent (host : HostEnv) (s : InstanceState) (eventData : JSVal) :
    List Action :=
  let ev :=
    match eventData with
    | .obj fields =>
        (match lookupField fields "event" with
          | some v => v
          | none => JSVal.undefined)
    | _ => JSVal.undefined
  if truthy ev = false then []
  else
    let eventName := jsToString ev
    let handler :=
      match objGet s.config "events" with
      | .obj fields =>
          (match lookupField fields eventName with
            | some v => v
            | none => JSVal.undefined)
      | _ => JSVal.undefined
    match handler with
    | .fn tok =>
        let arg :=
          match eventData with
          | .obj fields =>
              (match lookupField fields "data" with
                | some v => v
                | none => JSVal.undefined)
          | _ => JSVal.undefined
        match host tok arg with
        | some _ => [.hostCalled tok arg, .consoleError "Event handler failed:"]
        | none => [.hostCalled tok arg]
    | _ => []

/-- The string-addressable callable members of `SDKInstance` reachable by
`this[data.commandName]` in `#executeCommand` (the class's methods; `#`-named
private members are not reachable by string indexing). -/
def instanceMethodNames : List String :=
  ["setIsLoaded", "initFrame", "destroyFrame", "setConfig", "getConfig",
   "getFolderInfo", "getSelection", "getFiles", "getFolders", "getList",
   "getRooms", "getUserInfo", "getHashSettings", "openModal", "createFile",
   "createFolder", "createRoom", "setListView", "createHash", "login",
   "logout", "createTag", "addTagsToRoom", "removeTagsFromRoom",
   "getEditorInstance"]

/-- `#executeCommand`: looks a member up on the instance by
`data.commandName` and, when it is a function, calls it with
`data.commandData`.  The dispatch is the observation recorded here; no claim
under verification depends on the dispatched method's own effect. -/
def executeCommand (data : JSVal) : List Action :=
  match objGet data "commandName" with
  | .str n =>
      if n ∈ instanceMethodNames then
        [.commandInvoked n (objGet data "commandData")]
      else []
  | _ => []

/-- `#onMessage`: ignores non-string event data, decodes via
`#parseMessageData`, drops the message unless `data.frameId` strictly equals
`this.config.frameId`, and dispatches on `data.type` — method returns to
`#handleMethodResponse`, truthy `eventReturnData` to `#processEvent`,
commands to `#executeCommand`, truthy `error` payloads to `#handleError`.
There is no `try`/`catch` in this handler, so an exception of a dispatched
branch propagates to the browser's event dispatch. -/
def onMessage (parse : String → Option JSVal) (host : HostEnv) (dom : DomEnv)
    (s : InstanceState) (eventData : JSVal) : StepResult :=
  match eventData with
  | .str raw =>
    let pres := parseMessageData parse raw
    let data := pres.1
    let pacts := pres.2
    match getProp data "frameId" with
    | .error e => ⟨s, pacts, some e⟩
    | .ok dfid =>
      match getProp s.config "frameId" with
      | .error e => ⟨s, pacts, some e⟩
      | .ok cfid =>
        if strictEq dfid cfid = false then ⟨s, pacts, none⟩
        else
          match getProp data "type" with
          | .error e => ⟨s, pacts, some e⟩
          | .ok tval =>
            if strictEq tval (.str "onMethodReturn") then
              let r := handleMethodResponse host dom s data
              ⟨r.state, pacts ++ r.actions, r.thrown⟩
            else if strictEq tval (.str "onEventReturn") then
              match getProp data "eventReturnData" with
              | .error e => ⟨s, pacts, some e⟩
              | .ok erd =>
                if truthy erd then ⟨s, pacts ++ processEvent host s erd, none⟩
                else ⟨s, pacts, none⟩
            else if strictEq tval (.str "onCallCommand") then
              ⟨s, pacts ++ executeCommand data, none⟩
            else if strictEq tval (.str "error") then
              match getProp data "error" with
              | .error e => ⟨s, pacts, some e⟩
              | .ok errv =>
                if truthy errv then
                  let hres := handleError host s errv
                  ⟨s, pacts ++ hres.1, hres.2⟩
                else ⟨s, pacts, none⟩
            else ⟨s, pacts, none⟩
  | _ => ⟨s, [], none⟩

/-- `#executeMethod`: when disconnected and the method is not
`InstanceMethods.SetConfig` (`"setConfig"`), reports the connect error via
`#handleError` and returns without touching the queues; otherwise appends the
callback, builds the task `\x7btype: "method", methodName, data: params\x7d`, and
either defers it to the task queue (another call is pending) or sends it
immediately. -/
def executeMethod (host : HostEnv) (dom : DomEnv) (s : InstanceState)
    (methodName : String) (params : JSVal) (callback : Nat) : StepResult :=
  if s.isConnected = false && methodName != "setConfig" then
    let hres := handleError host s (.obj [("message", .str connectErrorText)])
    ⟨s, hres.1, hres.2⟩
  else
    let s1 := { s with callbacks := s.callbacks ++ [callback] }
    let message : TTask := ⟨"method", methodName, params⟩
    if s1.callbacks.length > 1 then
      ⟨{ s1 with tasks := s1.tasks ++ [message] }, [], none⟩
    else
      ⟨s1, sendMessage dom s1 message, none⟩

/-- `#prepareFrameConfig`: the shallow merge
`\x7b...this.config, ...defaultConfig, ...config\x7d`, followed by forcing
`noLoader` to `false` when the merged `mode` is `"manager"` or `"system"`. -/
def prepareFrameConfig (prev supplied : JSVal) : JSVal :=
  let mergedConfig := jsSpread (jsSpread prev defaultConfig) supplied
  if strictEq (objGet mergedConfig "mode") (.str "manager") ||
     strictEq (objGet mergedConfig "mode") (.str "system") then
    jsSet mergedConfig "noLoader" (.bool false)
  else mergedConfig

/-- `setConfig`: merges `\x7b...this.config, ...config\x7d` into the instance
configuration and forwards it over the bus via `#getMethodPromise`, whose
promise resolver is the pending-call callback token. -/
def setConfig (host : HostEnv) (dom : DomEnv) (s : InstanceState)
    (cfg : JSVal) (callback : Nat) : StepResult :=
  let newConfig := jsSpread s.config cfg
  let s1 := { s with config := newConfig }
  executeMethod host dom s1 "setConfig" newConfig callback

/-! ## DOM model and frame lifecycle -/

/-- A DOM element as observed by the claims: its `id`, `className` and
`innerHTML`.  Children of an element created by the SDK (the iframe and the
loader inside the render container) are owned by that element and are not
tracked separately. -/
structure Elem where
  id : String
  className : String
  innerHTML : String
deriving DecidableEq, Repr

/-- The attached elements of the document, in document order. -/
structure Doc where
  elems : List Elem
deriving DecidableEq, Repr

/-- `document.getElementById`: the first attached element with the id. -/
def Doc.byId (d : Doc) (i : String) : Option Elem :=
  d.elems.find? (fun e => e.id == i)

/-- Replace the first element carrying id `i` by `r` (this is what
`parentNode.insertBefore(r, el)` followed by removal of `el`, or
`parentNode.replaceChild(r, el)`, do to the flat view of the document). -/
def replaceFirstElem (r : Elem) (i : String) : List Elem → List Elem
  | [] => []
  | e :: es => if e.id == i then r :: es else e :: replaceFirstElem r i es

/-- `Doc` version of `replaceFirstElem`. -/
def Doc.replaceFirst (d : Doc) (i : String) (r : Elem) : Doc :=
  ⟨replaceFirstElem r i d.elems⟩

/-- Association-list read with JS-object semantics (later writes win). -/
def assocGet {α β : Type} [BEq α] (xs : List (α × β)) (k : α) : Option β :=
  match xs.reverse.find? (fun p => p.1 == k) with
  | some p => some p.2
  | none => none

/-- Association-list write with JS-object semantics. -/
def assocSet {α β : Type} [BEq α] (xs : List (α × β)) (k : α) (v : β) :
    List (α × β) :=
  xs ++ [(k, v)]

/-- Result of `destroyFrame`: the cleared instance fields, the mutated
document, the frames registry (`window.DocSpace.SDK.frames`), and whether
the global message listener remains attached. -/
structure DestroyResult where
  state : InstanceState
  doc : Doc
  frames : List (String × Nat)
  listenerAttached : Bool

/-- `destroyFrame`: builds the replacement placeholder div
(`id = frameId`, `className = this.#classNames`,
`innerHTML = this.config.destroyText || ""`), swaps it for the
`frameId-container` element when that element is attached, removes the
global message listener, clears the connection flag and both queues, and
deletes the instance's entry from the frames registry.  An attached element
always has a parent in the flat document view, so the fallback branch
appending the placeholder to `document.body` is unreachable here. -/
def destroyFrame (s : InstanceState) (doc : Doc) (frames : List (String × Nat))
    (listenerAttached : Bool) : DestroyResult :=
  let fid := jsToString (objGet s.config "frameId")
  let destroyTextVal := objGet s.config "destroyText"
  let replacementDiv : Elem :=
    { id := fid, className := s.classNames,
      innerHTML := if truthy destroyTextVal then jsToString destroyTextVal else "" }
  let doc1 :=
    match doc.byId (fid ++ "-container") with
    | some _ => doc.replaceFirst (fid ++ "-container") replacementDiv
    | none => doc
  let s1 := { s with isConnected := false, callbacks := [], tasks := [] }
  let frames1 := frames.filter (fun p => p.1 != fid)
  ⟨s1, doc1, frames1, (listenerAttached && false)⟩

/-- `#setupContainer`, with explicit fuel for the self-call that restores a
residual container: each recursive step replaces one `targetId-container`
element by a plain `targetId` div, so `doc.elems.length + 1` fuel is never
exhausted.  Returns the render container and the located target (or `none`
when the target placeholder is absent), the possibly mutated document, and
the new value of `#classNames`. -/
def setupContainerFuel (s : InstanceState) (targetId : String) :
    Nat → Doc → Option (Elem × Elem) × Doc × String
  | 0, doc => (none, doc, s.classNames)
  | fuel + 1, doc =>
    match doc.byId targetId with
    | none => (none, doc, s.classNames)
    | some target =>
      match doc.byId (targetId ++ "-container") with
      | some _ =>
          let restoredTarget : Elem :=
            { id := targetId, className := "", innerHTML := "" }
          let doc1 := doc.replaceFirst (targetId ++ "-container") restoredTarget
          setupContainerFuel s targetId fuel doc1
      | none =>
          let renderContainer : Elem :=
            { id := targetId ++ "-container", className := "frame-container",
              innerHTML := "" }
          (some (renderContainer, target), doc, target.className)

/-- `#setupContainer` at its call site (fuel instantiated, see
`setupContainerFuel`). -/
def setupContainer (s : InstanceState) (doc : Doc) (targetId : String) :
    Option (Elem × Elem) × Doc × String :=
  setupContainerFuel s targetId (doc.elems.length + 1) doc

/-- Result of `initFrame`: the created iframe (or `null` on failure), the
updated instance fields, the mutated document, and the frames registry. -/
structure InitResult where
  iframe : Option Elem
  state : InstanceState
  doc : Doc
  frames : List (String × Nat)

/-- `initFrame`: installs the merged configuration
(`#prepareFrameConfig`), locates the placeholder via `#setupContainer`
(returning `null` and leaving the document otherwise untouched when it is
absent), creates the iframe (`#setupIframe`; the iframe carries
`id = frameId` and lives inside the render container), registers the
one-shot load handler (`#setupFrameEventHandlers` — connection and the
global message listener are established only when the load event later
fires, so they are untouched here), swaps the render container for the
target placeholder (`#assembleFrame`), and writes the instance into the
frames registry (`#registerFrame`).  `selfId` is the identity of this
instance in the registry. -/
def initFrame (selfId : Nat) (s : InstanceState) (doc : Doc)
    (frames : List (String × Nat)) (cfg : JSVal) : InitResult :=
  let s0 := { s with config := prepareFrameConfig s.config cfg }
  let targetId := jsToString (objGet s0.config "frameId")
  match setupContainer s0 doc targetId with
  | (none, doc1, _) => ⟨none, s0, doc1, frames⟩
  | (some (container, target), doc1, cn) =>
      let s1 := { s0 with classNames := cn }
      let iframe : Elem := { id := targetId, className := "", innerHTML := "" }
      let doc2 := doc1.replaceFirst target.id container
      let frames1 := assocSet frames targetId selfId
      ⟨some iframe, s1, doc2, frames1⟩

/-! ## The Registry (`src/sdk/index.ts`, class `SDK`) -/

/-- The `SDK` registry: the `instances` array (instance identities in push
order), the per-identity instance fields, the shared frames registry, a
fresh-identity counter modelling JS object identity, and the observable
trace of `initFrame` invocations `(instance, config argument)`. -/
structure SDKState where
  nextId : Nat
  instances : List Nat
  states : List (Nat × InstanceState)
  frames : List (String × Nat)
  trace : List (Nat × JSVal)

/-- `SDK.init`: finds an existing instance whose `config.frameId` strictly
equals `config.frameId` and reinitializes it in place, or constructs a new
`SDKInstance` (whose constructor stores `config` verbatim), initializes it,
and pushes it onto `instances`; either way the (found or new) instance is
returned.  The `config.frameId` read inside the `find` predicate is hoisted
since it is pure; it throws when `config` is nullish and the array is
non-empty, which the `Except` models. -/
def SDK.init (cfg : JSVal) (w : SDKState) (doc : Doc) :
    Except JSError (Nat × SDKState × Doc) :=
  match w.instances with
  | [] =>
      let i := w.nextId
      let st0 : InstanceState := ⟨false, [], [], "", cfg⟩
      let r := initFrame i st0 doc w.frames cfg
      .ok (i, { w with nextId := i + 1,
                       instances := w.instances ++ [i],
                       states := assocSet w.states i r.state,
                       frames := r.frames,
                       trace := w.trace ++ [(i, cfg)] }, r.doc)
  | _ :: _ =>
    match getProp cfg "frameId" with
    | .error e => .error e
    | .ok cfid =>
      let found := w.instances.find? (fun i =>
        match assocGet w.states i with
        | some st => strictEq (objGet st.config "frameId") cfid
        | none => false)
      match found with
      | some i =>
          (match assocGet w.states i with
            | some st =>
                let r := initFrame i st doc w.frames cfg
                .ok (i, { w with states := assocSet w.states i r.state,
                                 frames := r.frames,
                                 trace := w.trace ++ [(i, cfg)] }, r.doc)
            | none => .ok (i, w, doc))
      | none =>
          let i := w.nextId
          let st0 : InstanceState := ⟨false, [], [], "", cfg⟩
          let r := initFrame i st0 doc w.frames cfg
          .ok (i, { w with nextId := i + 1,
                           instances := w.instances ++ [i],
                           states := assocSet w.states i r.state,
                           frames := r.frames,
                           trace := w.trace ++ [(i, cfg)] }, r.doc)

/-! ## Call/response harness and concrete fixtures -/

/-- One host-issued `#executeMethod` invocation: remote method name,
parameters, and the single-shot callback token. -/
structure Call where
  methodName : String
  params : JSVal
  callback : Nat

/-- The call envelope `#executeMethod` builds for a call. -/
def mkTask (c : Call) : TTask :=
  ⟨"method", c.methodName, c.params⟩

/-- The messages posted into the iframe within an action trace, in order. -/
def postedTasks (acts : List Action) : List TTask :=
  acts.filterMap (fun a =>
    match a with
    | .posted _ t => some t
    | _ => none)

/-- Issue a sequence of `#executeMethod` calls, threading the instance state
and concatenating the observable traces; an uncaught exception stops the
sequence (none arises for accepted calls). -/
def execCalls (host : HostEnv) (dom : DomEnv) :
    List Call → InstanceState → InstanceState × List Action × Option JSError
  | [], s => (s, [], none)
  | c :: rest, s =>
      let r := executeMethod host dom s c.methodName c.params c.callback
      match r.thrown with
      | some e => (r.state, r.actions, some e)
      | none =>
          let rr := execCalls host dom rest r.state
          (rr.1, r.actions ++ rr.2.1, rr.2.2)

/-- Deliver a sequence of method-return payloads to
`#handleMethodResponse`, threading the instance state and concatenating the
observable traces; an uncaught callback exception stops the sequence. -/
def pumpReturns (host : HostEnv) (dom : DomEnv) :
    List JSVal → InstanceState → InstanceState × List Action × Option JSError
  | [], s => (s, [], none)
  | d :: rest, s =>
      let r := handleMethodResponse host dom s d
      match r.thrown with
      | some e => (r.state, r.actions, some e)
      | none =>
          let rr := pumpReturns host dom rest r.state
          (rr.1, r.actions ++ rr.2.1, rr.2.2)

/-- Values on which JS property access cannot throw. -/
def notNullish : JSVal → Bool
  | .null => false
  | .undefined => false
  | _ => true

/-- Host environment in which every host-supplied function returns
normally (the SDK's own promise resolvers never throw). -/
def hostNone : HostEnv := fun _ _ => none

/-- Host environment in which the function with token `0` throws. -/
def cbThrows0 : HostEnv := fun tok _ =>
  if tok = 0 then some (.hostError 0 "boom") else none

/-- DOM environment in which every frame id resolves to an iframe with an
available `contentWindow`. -/
def domAll : DomEnv := fun _ => true

/-- A concrete host configuration: frame `frame1`, portal `src`, and a
registered `onAppError` handler (function token `7`). -/
def cfgF : JSVal := .obj [
  ("frameId", .str "frame1"),
  ("src", .str "http://portal.example"),
  ("events", .obj [("onAppError", .fn 7)])]

/-- A connected, idle instance holding `cfgF`. -/
def stF : InstanceState := ⟨true, [], [], "", cfgF⟩

/-- `JSON.parse` on inputs that are not valid JSON: throws (the only inputs
this oracle is applied to are such strings). -/
def parseRejectAll : String → Option JSVal := fun _ => none

/-- `JSON.parse` on the input `"null"`, which is valid JSON and parses to
`null`; other inputs are not used with this oracle. -/
def parseNullOracle : String → Option JSVal := fun s =>
  if s = "null" then some .null else none

/-! ## Lookup lemmas for the append representation of objects -/

theorem lookupField_append (a b : List (String × JSVal)) (k : String) :
    lookupField (a ++ b) k = (lookupField b k).or (lookupField a k) := by
  unfold lookupField
  rw [List.reverse_append, List.find?_append]
  cases hb : (b.reverse.find? fun p => p.1 == k) with
  | none => simp [Option.or]
  | some p => simp [Option.or]

theorem lookupField_single_ne (k k2 : String) (v : JSVal) (h : k ≠ k2) :
    lookupField [(k2, v)] k = none := by
  unfold lookupField
  have hbeq : (k2 == k) = false := by
    simpa using fun he => h he.symm
  simp [List.find?, hbeq]

theorem lookupField_single_eq (k : String) (v : JSVal) :
    lookupField [(k, v)] k = some v := by
  unfold lookupField
  simp [List.find?]

/-- The merge order `#prepareFrameConfig` implements for an ordinary key:
the supplied configuration wins, then the library defaults, then the
previous configuration. -/
def mergeValue (prev defaults supplied : JSVal) (k : String) : JSVal :=
  match lookupField (spreadFields supplied) k with
  | some v => v
  | none =>
    match lookupField (spreadFields defaults) k with
    | some v => v
    | none =>
      match lookupField (spreadFields prev) k with
      | some v => v
      | none => .undefined

theorem objGet_mergeValue (prev supplied : JSVal) (k : String) :
    objGet (jsSpread (jsSpread prev defaultConfig) supplied) k =
      mergeValue prev defaultConfig supplied k := by
  show objGet (.obj ((spreadFields prev ++ spreadFields defaultConfig) ++
      spreadFields supplied)) k = _
  rw [objGet, lookupField_append, lookupField_append]
  unfold mergeValue
  cases lookupField (spreadFields supplied) k <;>
    cases lookupField (spreadFields defaultConfig) k <;>
    cases lookupField (spreadFields prev) k <;>
    simp [Option.or]

theorem prepareFrameConfig_getKey (prev supplied : JSVal) (k : String)
    (hk : k ≠ "noLoader") :
    objGet (prepareFrameConfig prev supplied) k =
      mergeValue prev defaultConfig supplied k := by
  rw [prepareFrameConfig]
  split
  · show objGet (.obj (spreadFields (jsSpread (jsSpread prev defaultConfig) supplied)
        ++ [("noLoader", .bool false)])) k = _
    rw [objGet, lookupField_append, lookupField_single_ne k "noLoader" _ hk,
      Option.none_or, ← objGet_mergeValue prev supplied k]
    rfl
  · exact objGet_mergeValue prev supplied k

theorem prepareFrameConfig_getNoLoader (prev supplied : JSVal) :
    objGet (prepareFrameConfig prev supplied) "noLoader" =
      if strictEq (objGet (jsSpread (jsSpread prev defaultConfig) supplied) "mode")
            (.str "manager") ||
         strictEq (objGet (jsSpread (jsSpread prev defaultConfig) supplied) "mode")
            (.str "system") then
        .bool false
      else mergeValue prev defaultConfig supplied "noLoader" := by
  rw [prepareFrameConfig]
  split
  · show objGet (.obj (spreadFields (jsSpread (jsSpread prev defaultConfig) supplied)
        ++ [("noLoader", .bool false)])) "noLoader" = _
    rw [objGet, lookupField_append, lookupField_single_eq]
    rfl
  · exact objGet_mergeValue prev supplied "noLoader"

/-- C7 (amended): for every `initFrame`-style merge of a previous
configuration with a supplied configuration, a key present in the supplied
config takes its supplied value; a key absent from the supplied config
takes the *library default* when the key has a default, and only otherwise
keeps its previous value; additionally `noLoader` is forced to `false` when
the merged `mode` is `"manager"` or `"system"`. -/
theorem prepareFrameConfig_merge (prev supplied : JSVal) :
    (∀ k : String, k ≠ "noLoader" →
      objGet (prepareFrameConfig prev supplied) k =
        mergeValue prev defaultConfig supplied k) ∧
    (objGet (prepareFrameConfig prev supplied) "noLoader" =
      if strictEq (objGet (jsSpread (jsSpread prev defaultConfig) supplied) "mode")
            (.str "manager") ||
         strictEq (objGet (jsSpread (jsSpread prev defaultConfig) supplied) "mode")
            (.str "system") then
        .bool false
      else mergeValue prev defaultConfig supplied "noLoader") :=
  ⟨fun k hk => prepareFrameConfig_getKey prev supplied k hk,
   prepareFrameConfig_getNoLoader prev supplied⟩

/-- C7 counterexample: on an instance whose previous configuration sets
`theme` to `"dark"`, reinitializing with a supplied config lacking `theme`
yields the library default `"System"` — the previous value is reset to the
default, because `#prepareFrameConfig` spreads `defaultConfig` *after* the
previous configuration. -/
theorem prepareFrameConfig_counterexample :
    objGet ((initFrame 0
        ⟨false, [], [], "", .obj [("frameId", .str "frame1"), ("theme", .str "dark")]⟩
        ⟨[]⟩ [] (.obj [("frameId", .str "frame1")])).state.config) "theme" =
      .str "System" ∧
    JSVal.str "System" ≠ JSVal.str "dark" := by
  refine ⟨rfl, ?_⟩
  intro h
  injection h with h2
  exact absurd h2 (by decide)

/-- Witness for `prepareFrameConfig_merge` at the key `"theme"`. -/
theorem prepareFrameConfig_merge_witness :
    ("theme" ≠ "noLoader") ∧
    objGet (prepareFrameConfig (.obj [("theme", .str "dark")]) (.obj [])) "theme" =
      mergeValue (.obj [("theme", .str "dark")]) defaultConfig (.obj []) "theme" :=
  ⟨by decide,
   (prepareFrameConfig_merge (.obj [("theme", .str "dark")]) (.obj [])).1 "theme"
     (by decide)⟩

/-- C2: the inbound data string `"null"` is valid structured text
(`JSON.parse` succeeds and yields `null`), yet processing it raises a
`TypeError` out of `#onMessage`: the dispatcher reads `data.frameId` on the
parsed `null`, and the cited `#parseMessageData` performs none of the
non-null validation that would absorb it. -/
theorem onMessage_throws_on_parsed_null :
    (onMessage parseNullOracle hostNone domAll stF (.str "null")).thrown =
      some (.typeError "Cannot read properties of null (reading frameId)") := rfl

/-- The deferred call pending behind the in-flight one in the C3 scenario. -/
def taskPending : TTask := ⟨"method", "getFiles", .null⟩

/-- C3: delivering a method-return message that carries no
`methodReturnData` to an instance whose oldest pending callback throws: the
callback is invoked with `undefined` (not an empty record), its exception
escapes `#handleMethodResponse` uncaught, and the queued task is left
untransmitted — the cited handler has no `try`/`catch` and no defaulting. -/
theorem handleMethodResponse_exception_escapes :
    handleMethodResponse cbThrows0 domAll ⟨true, [0], [taskPending], "", cfgF⟩
      (.obj [("frameId", .str "frame1"), ("type", .str "onMethodReturn")]) =
    ⟨⟨true, [], [taskPending], "", cfgF⟩, [.callbackInvoked 0 .undefined],
     some (.hostError 0 "boom")⟩ := rfl

/-- The successfully parsed record lacking a `frameId` field used for C6. -/
def parsedNoFrameId : JSVal := .obj [("type", .str "onMethodReturn")]

/-- `JSON.parse` on the two valid JSON inputs used for C6. -/
def parseShapeOracle : String → Option JSVal := fun s =>
  if s = "\x7b\"type\":\"onMethodReturn\"\x7d" then some parsedNoFrameId
  else if s = "null" then some .null
  else none

/-- C6: the decode step returns the parsed value verbatim — a successfully
parsed record lacking `frameId` is not given the defaulted empty-string
`frameId`, and a successfully parsed `null` is passed through with no
non-null record validation. -/
theorem parseMessageData_no_validation :
    parseMessageData parseShapeOracle "\x7b\"type\":\"onMethodReturn\"\x7d" =
      (parsedNoFrameId, []) ∧
    lookupField (spreadFields parsedNoFrameId) "frameId" = none ∧
    objGet parsedNoFrameId "frameId" = .undefined ∧
    parseMessageData parseShapeOracle "null" = (.null, []) :=
  ⟨rfl, rfl, rfl, rfl⟩

/-- C4 counterexample: a parse failure on an instance with frameId
`"frame1"` and a registered `onAppError` handler (token `7`) emits only the
parse warning: the synthetic envelope's `frameId` `"error"` fails the
instance's frameId filter, so `#handleError` does not run and `onAppError`
is not invoked. -/
theorem parse_failure_not_routed :
    onMessage parseRejectAll hostNone domAll stF (.str "@@@") =
      ⟨stF, [.consoleWarn "Failed to parse message:"], none⟩ := rfl

/-- C4 (amended): for every instance whose configured `frameId` is a string
other than the literal `"error"`, an inbound string that fails to parse
produces only the parse warning — the synthetic error envelope (whose
`frameId` is `"error"`) is dropped by the frameId filter, the state is
unchanged, nothing is thrown, and neither `#handleError` nor `onAppError`
runs.  The standard error path is reachable for a parse failure only on an
instance whose own `frameId` is the literal `"error"`. -/
theorem parse_failure_dropped (parse : String → Option JSVal) (host : HostEnv)
    (dom : DomEnv) (s : InstanceState) (raw f : String)
    (hp : parse raw = none)
    (hf : getProp s.config "frameId" = .ok (.str f))
    (hne : f ≠ "error") :
    onMessage parse host dom s (.str raw) =
      ⟨s, [.consoleWarn "Failed to parse message:"], none⟩ := by
  have hEq : parseMessageData parse raw =
      (.obj [("frameId", .str "error"), ("type", .str "error"),
             ("commandName", .str "parseMessageData"),
             ("error", .obj [("message", .str "Invalid message format")])],
       [.consoleWarn "Failed to parse message:"]) := by
    unfold parseMessageData
    rw [hp]
  have hmm : strictEq (.str "error") (.str f) = false := by
    simp [strictEq]
    exact fun he => hne he.symm
  unfold onMessage
  dsimp only
  rw [hEq]
  dsimp only
  have hget : getProp (JSVal.obj
      [("frameId", .str "error"), ("type", .str "error"),
       ("commandName", .str "parseMessageData"),
       ("error", .obj [("message", .str "Invalid message format")])]) "frameId" =
      .ok (.str "error") := rfl
  rw [hget]
  simp only [hf]
  simp [hmm]

/-- Witness for `parse_failure_dropped` on the concrete instance `stF`. -/
theorem parse_failure_dropped_witness :
    parseRejectAll "@@@" = none ∧
    getProp stF.config "frameId" = .ok (.str "frame1") ∧
    "frame1" ≠ "error" ∧
    onMessage parseRejectAll hostNone domAll stF (.str "@@@") =
      ⟨stF, [.consoleWarn "Failed to parse message:"], none⟩ :=
  ⟨rfl, rfl, by decide,
   parse_failure_dropped parseRejectAll hostNone domAll stF "@@@" "frame1"
     rfl rfl (by decide)⟩

/-- `#handleError` never posts a message into the iframe. -/
theorem handleError_no_posts (host : HostEnv) (s : InstanceState) (e : JSVal) :
    postedTasks (handleError host s e).1 = [] := by
  unfold handleError
  dsimp only
  repeat' split
  all_goals rfl

/-- C5: while disconnected, `#executeMethod` with any method other than
`"setConfig"` transmits nothing, leaves the whole instance state (in
particular both queues) unchanged, and — when `onAppError` is registered as
a function — invokes it with the documented connect-error text; a
`"setConfig"` invocation in the same disconnected state is accepted: the
callback is appended and the call envelope is deferred to the task queue
behind a pending call, or transmitted immediately otherwise. -/
theorem executeMethod_disconnected_gate (host : HostEnv) (dom : DomEnv)
    (s : InstanceState) (m : String) (params : JSVal) (cb : Nat)
    (hdisc : s.isConnected = false) :
    (m ≠ "setConfig" →
      (executeMethod host dom s m params cb).state = s ∧
      postedTasks (executeMethod host dom s m params cb).actions = [] ∧
      (∀ tok : Nat,
        objGet (objGet s.config "events") "onAppError" = .fn tok →
        (executeMethod host dom s m params cb).actions =
          [.consoleError "SDK Error:", .hostCalled tok (.str connectErrorText)])) ∧
    ((executeMethod host dom s "setConfig" params cb).state.callbacks =
        s.callbacks ++ [cb] ∧
     (executeMethod host dom s "setConfig" params cb).state.isConnected =
        s.isConnected ∧
     (s.callbacks = [] →
        (executeMethod host dom s "setConfig" params cb).state.tasks = s.tasks ∧
        (executeMethod host dom s "setConfig" params cb).actions =
          sendMessage dom { s with callbacks := s.callbacks ++ [cb] }
            ⟨"method", "setConfig", params⟩) ∧
     (s.callbacks ≠ [] →
        (executeMethod host dom s "setConfig" params cb).state.tasks =
          s.tasks ++ [⟨"method", "setConfig", params⟩] ∧
        (executeMethod host dom s "setConfig" params cb).actions = [])) := by
  constructor
  · intro hm
    have hrw : executeMethod host dom s m params cb =
        ⟨s, (handleError host s (.obj [("message", .str connectErrorText)])).1,
            (handleError host s (.obj [("message", .str connectErrorText)])).2⟩ := by
      unfold executeMethod
      rw [if_pos]
      rw [hdisc]
      simp [hm]
    refine ⟨by rw [hrw], by rw [hrw]; exact handleError_no_posts host s _, ?_⟩
    intro tok htok
    rw [hrw]
    show (handleError host s (.obj [("message", .str connectErrorText)])).1 = _
    unfold handleError
    dsimp only
    cases hev : objGet s.config "events" with
    | null => rw [hev] at htok; exact absurd htok (by simp [objGet])
    | undefined => rw [hev] at htok; exact absurd htok (by simp [objGet])
    | bool b =>
        rw [hev] at htok
        exact absurd htok (by simp [objGet])
    | num n =>
        rw [hev] at htok
        exact absurd htok (by simp [objGet])
    | str s2 =>
        rw [hev] at htok
        exact absurd htok (by simp [objGet])
    | fn t2 =>
        rw [hev] at htok
        exact absurd htok (by simp [objGet])
    | arr xs =>
        rw [hev] at htok
        exact absurd htok (by simp [objGet])
    | obj fields =>
        rw [hev] at htok
        dsimp only
        rw [htok]
        rfl
  · have hrw : executeMethod host dom s "setConfig" params cb =
        (if ({ s with callbacks := s.callbacks ++ [cb] } :
              InstanceState).callbacks.length > 1 then
           ⟨{ s with callbacks := s.callbacks ++ [cb],
                     tasks := s.tasks ++ [⟨"method", "setConfig", params⟩] },
            [], none⟩
         else ⟨{ s with callbacks := s.callbacks ++ [cb] },
               sendMessage dom { s with callbacks := s.callbacks ++ [cb] }
                 ⟨"method", "setConfig", params⟩, none⟩) := by
      unfold executeMethod
      rw [if_neg]
      simp
    by_cases hcb : s.callbacks = []
    · have hif : ¬ (({ s with callbacks := s.callbacks ++ [cb] } :
          InstanceState).callbacks.length > 1) := by
        simp [hcb]
      have hstep : executeMethod host dom s "setConfig" params cb =
          ⟨{ s with callbacks := s.callbacks ++ [cb] },
           sendMessage dom { s with callbacks := s.callbacks ++ [cb] }
             ⟨"method", "setConfig", params⟩, none⟩ := by
        rw [hrw, if_neg hif]
      refine ⟨by rw [hstep], by rw [hstep], ?_, ?_⟩
      · intro _
        exact ⟨by rw [hstep], by rw [hstep]⟩
      · intro hne
        exact absurd hcb hne
    · have hif : ({ s with callbacks := s.callbacks ++ [cb] } :
          InstanceState).callbacks.length > 1 := by
        have hpos : 0 < s.callbacks.length := List.length_pos.mpr hcb
        simp only [List.length_append, List.length_cons, List.length_nil]
        omega
      have hstep : executeMethod host dom s "setConfig" params cb =
          ⟨{ s with callbacks := s.callbacks ++ [cb],
                    tasks := s.tasks ++ [⟨"method", "setConfig", params⟩] },
           [], none⟩ := by
        rw [hrw, if_pos hif]
      refine ⟨by rw [hstep], by rw [hstep], ?_, ?_⟩
      · intro habs
        exact absurd habs hcb
      · intro _
        exact ⟨by rw [hstep], by rw [hstep]⟩

/-- A disconnected, idle instance holding `cfgF`. -/
def stDisc : InstanceState := ⟨false, [], [], "", cfgF⟩

/-- Witness for `executeMethod_disconnected_gate` on `stDisc` with the
remote method `getFiles` and the exempt method `setConfig`. -/
theorem executeMethod_disconnected_gate_witness :
    stDisc.isConnected = false ∧
    (executeMethod hostNone domAll stDisc "getFiles" .null 3).state = stDisc ∧
    postedTasks (executeMethod hostNone domAll stDisc "getFiles" .null 3).actions = [] ∧
    (executeMethod hostNone domAll stDisc "getFiles" .null 3).actions =
      [.consoleError "SDK Error:", .hostCalled 7 (.str connectErrorText)] ∧
    (executeMethod hostNone domAll stDisc "setConfig" .null 3).state.callbacks = [3] := by
  have h := executeMethod_disconnected_gate hostNone domAll stDisc "getFiles" .null 3 rfl
  have hA := h.1 (by decide)
  exact ⟨rfl, hA.1, hA.2.1, hA.2.2 7 rfl, h.2.1⟩

/-! ## FIFO correlation lemmas -/

theorem postedTasks_append (a b : List Action) :
    postedTasks (a ++ b) = postedTasks a ++ postedTasks b := by
  unfold postedTasks
  exact List.filterMap_append a b _

theorem getProp_ok_of_notNullish (d : JSVal) (k : String)
    (h : notNullish d = true) : getProp d k = .ok (objGet d k) := by
  cases d with
  | null => exact absurd h (by simp [notNullish])
  | undefined => exact absurd h (by simp [notNullish])
  | bool b => rfl
  | num n => rfl
  | str s2 => rfl
  | fn tok => rfl
  | arr xs => rfl
  | obj fields => rfl

theorem sendMessage_posts (dom : DomEnv) (s : InstanceState) (message : TTask)
    (f : String) (hf : objGet s.config "frameId" = .str f)
    (hdom : dom f = true) :
    sendMessage dom s message = [.posted f message] := by
  unfold sendMessage
  rw [hf]
  dsimp only
  rw [hdom]
  rfl

theorem executeMethod_connected_busy (host : HostEnv) (dom : DomEnv)
    (s : InstanceState) (c : Call) (hconn : s.isConnected = true)
    (hbusy : s.callbacks ≠ []) :
    executeMethod host dom s c.methodName c.params c.callback =
      ⟨{ s with callbacks := s.callbacks ++ [c.callback],
                tasks := s.tasks ++ [mkTask c] }, [], none⟩ := by
  have hlen : ({ s with callbacks := s.callbacks ++ [c.callback] } :
      InstanceState).callbacks.length > 1 := by
    have hpos : 0 < s.callbacks.length := List.length_pos.mpr hbusy
    simp only [List.length_append, List.length_cons, List.length_nil]
    omega
  unfold executeMethod
  rw [if_neg (by rw [hconn]; simp)]
  dsimp only
  rw [if_pos hlen]
  rfl

theorem executeMethod_connected_idle (host : HostEnv) (dom : DomEnv)
    (s : InstanceState) (c : Call) (hconn : s.isConnected = true)
    (hidle : s.callbacks = []) :
    executeMethod host dom s c.methodName c.params c.callback =
      ⟨{ s with callbacks := s.callbacks ++ [c.callback] },
       sendMessage dom { s with callbacks := s.callbacks ++ [c.callback] }
         (mkTask c), none⟩ := by
  have hlen : ¬ (({ s with callbacks := s.callbacks ++ [c.callback] } :
      InstanceState).callbacks.length > 1) := by
    simp [hidle]
  unfold executeMethod
  rw [if_neg (by rw [hconn]; simp)]
  dsimp only
  rw [if_neg hlen]
  rfl

theorem execCalls_busy (host : HostEnv) (dom : DomEnv) (calls : List Call)
    (s : InstanceState) (hconn : s.isConnected = true)
    (hbusy : s.callbacks ≠ []) :
    execCalls host dom calls s =
      ({ s with callbacks := s.callbacks ++ calls.map Call.callback,
                tasks := s.tasks ++ calls.map mkTask }, [], none) := by
  induction calls generalizing s with
  | nil => simp [execCalls]
  | cons c rest ih =>
      rw [execCalls, executeMethod_connected_busy host dom s c hconn hbusy]
      dsimp only
      have hbusy2 :
          (⟨s.isConnected, s.callbacks ++ [c.callback], s.tasks ++ [mkTask c],
            s.classNames, s.config⟩ : InstanceState).callbacks ≠ [] := by
        simp
      have hconn2 :
          (⟨s.isConnected, s.callbacks ++ [c.callback], s.tasks ++ [mkTask c],
            s.classNames, s.config⟩ : InstanceState).isConnected = true := hconn
      rw [ih _ hconn2 hbusy2]
      simp

theorem execCalls_from_idle (host : HostEnv) (dom : DomEnv) (c : Call)
    (rest : List Call) (s : InstanceState) (f : String)
    (hconn : s.isConnected = true) (hidle : s.callbacks = [])
    (htasks : s.tasks = []) (hf : objGet s.config "frameId" = .str f)
    (hdom : dom f = true) :
    execCalls host dom (c :: rest) s =
      ({ s with callbacks := (c :: rest).map Call.callback,
                tasks := rest.map mkTask },
       [.posted f (mkTask c)], none) := by
  rw [execCalls, executeMethod_connected_idle host dom s c hconn hidle]
  dsimp only
  rw [sendMessage_posts dom { s with callbacks := s.callbacks ++ [c.callback] }
    (mkTask c) f hf hdom]
  have hbusy2 :
      (⟨s.isConnected, s.callbacks ++ [c.callback], s.tasks,
        s.classNames, s.config⟩ : InstanceState).callbacks ≠ [] := by
    simp
  have hconn2 :
      (⟨s.isConnected, s.callbacks ++ [c.callback], s.tasks,
        s.classNames, s.config⟩ : InstanceState).isConnected = true := hconn
  rw [execCalls_busy host dom rest _ hconn2 hbusy2]
  simp [hidle, htasks]

theorem handleMethodResponse_step (host : HostEnv) (dom : DomEnv) (ic : Bool)
    (cb : Nat) (cbs : List Nat) (tkl : List TTask) (cn : String) (cfg d : JSVal)
    (hd : notNullish d = true)
    (hhostcb : host cb (objGet d "methodReturnData") = none) :
    handleMethodResponse host dom ⟨ic, cb :: cbs, tkl, cn, cfg⟩ d =
      match tkl with
      | [] => ⟨⟨ic, cbs, [], cn, cfg⟩,
               [.callbackInvoked cb (objGet d "methodReturnData")], none⟩
      | t :: ts => ⟨⟨ic, cbs, ts, cn, cfg⟩,
               .callbackInvoked cb (objGet d "methodReturnData") ::
                 sendMessage dom ⟨ic, cbs, ts, cn, cfg⟩ t, none⟩ := by
  unfold handleMethodResponse
  rw [getProp_ok_of_notNullish d _ hd]
  dsimp only
  rw [hhostcb]
  cases tkl with
  | nil => rfl
  | cons t ts => rfl

theorem pumpReturns_run (host : HostEnv) (dom : DomEnv) (datas : List JSVal)
    (ic : Bool) (cbl : List Nat) (tkl : List TTask) (cn : String)
    (cfg : JSVal) (f : String)
    (hf : objGet cfg "frameId" = .str f) (hdom : dom f = true)
    (hhost : ∀ t v, host t v = none)
    (hd : ∀ d ∈ datas, notNullish d = true)
    (hbal : tkl.length ≤ cbl.length) :
    (pumpReturns host dom datas ⟨ic, cbl, tkl, cn, cfg⟩).1 =
      ⟨ic, cbl.drop datas.length, tkl.drop datas.length, cn, cfg⟩ ∧
    postedTasks (pumpReturns host dom datas ⟨ic, cbl, tkl, cn, cfg⟩).2.1 =
      tkl.take datas.length ∧
    (pumpReturns host dom datas ⟨ic, cbl, tkl, cn, cfg⟩).2.2 = none := by
  induction datas generalizing cbl tkl with
  | nil => exact ⟨by simp [pumpReturns], rfl, rfl⟩
  | cons d rest ih =>
    have hdhead : notNullish d = true := hd d (by simp)
    have hdrest : ∀ x ∈ rest, notNullish x = true := fun x hx => hd x (by simp [hx])
    rw [pumpReturns]
    cases cbl with
    | nil =>
      have hlen0 : tkl.length = 0 := Nat.le_zero.mp (by simpa using hbal)
      have htk : tkl = [] := List.eq_nil_of_length_eq_zero hlen0
      subst htk
      have hstep : handleMethodResponse host dom ⟨ic, [], [], cn, cfg⟩ d =
          ⟨⟨ic, [], [], cn, cfg⟩, [], none⟩ := rfl
      rw [hstep]
      dsimp only
      obtain ⟨ih1, ih2, ih3⟩ := ih [] [] hdrest (Nat.le_refl 0)
      exact ⟨by simpa using ih1, by simpa using ih2, by simpa using ih3⟩
    | cons cb cbs =>
      have hstep := handleMethodResponse_step host dom ic cb cbs tkl cn cfg d
        hdhead (hhost cb _)
      cases tkl with
      | nil =>
        have hstep2 : handleMethodResponse host dom
            ⟨ic, cb :: cbs, [], cn, cfg⟩ d =
            ⟨⟨ic, cbs, [], cn, cfg⟩,
             [.callbackInvoked cb (objGet d "methodReturnData")], none⟩ := hstep
        rw [hstep2]
        dsimp only
        obtain ⟨ih1, ih2, ih3⟩ := ih cbs [] hdrest (Nat.zero_le _)
        refine ⟨?_, ?_, ?_⟩
        · simpa using ih1
        · rw [postedTasks_append, ih2]
          simp [postedTasks]
        · simpa using ih3
      | cons t ts =>
        have hstep2 : handleMethodResponse host dom
            ⟨ic, cb :: cbs, t :: ts, cn, cfg⟩ d =
            ⟨⟨ic, cbs, ts, cn, cfg⟩,
             .callbackInvoked cb (objGet d "methodReturnData") ::
               sendMessage dom ⟨ic, cbs, ts, cn, cfg⟩ t, none⟩ := hstep
        rw [hstep2, sendMessage_posts dom ⟨ic, cbs, ts, cn, cfg⟩ t f hf hdom]
        dsimp only
        have hbal2 : ts.length ≤ cbs.length := by simpa using hbal
        obtain ⟨ih1, ih2, ih3⟩ := ih cbs ts hdrest hbal2
        refine ⟨?_, ?_, ?_⟩
        · simpa using ih1
        · show postedTasks ((.callbackInvoked cb (objGet d "methodReturnData") ::
            [.posted f t]) ++ (pumpReturns host dom rest ⟨ic, cbs, ts, cn, cfg⟩).2.1) = _
          rw [postedTasks_append, ih2]
          simp [postedTasks]
        · simpa using ih3

/-- C1: from a connected, idle instance, a sequence of accepted
`#executeMethod` calls transmits only the first call's envelope and defers
the rest to the task queue in call order; each received method-return then
transmits exactly one deferred envelope — the oldest — so the envelopes go
out one at a time in call order. -/
theorem method_calls_fifo (host : HostEnv) (dom : DomEnv) (c : Call)
    (rest : List Call) (datas : List JSVal) (s : InstanceState) (f : String)
    (hconn : s.isConnected = true) (hidle : s.callbacks = [])
    (htasks : s.tasks = []) (hf : objGet s.config "frameId" = .str f)
    (hdom : dom f = true) (hhost : ∀ t v, host t v = none)
    (hd : ∀ d ∈ datas, notNullish d = true)
    (hlen : datas.length ≤ rest.length) :
    execCalls host dom (c :: rest) s =
      ({ s with callbacks := (c :: rest).map Call.callback,
                tasks := rest.map mkTask },
       [.posted f (mkTask c)], none) ∧
    postedTasks (pumpReturns host dom datas
        (execCalls host dom (c :: rest) s).1).2.1 =
      (rest.map mkTask).take datas.length ∧
    (postedTasks (pumpReturns host dom datas
        (execCalls host dom (c :: rest) s).1).2.1).length = datas.length ∧
    (pumpReturns host dom datas (execCalls host dom (c :: rest) s).1).1.tasks =
      (rest.map mkTask).drop datas.length ∧
    (pumpReturns host dom datas (execCalls host dom (c :: rest) s).1).2.2 =
      none := by
  obtain ⟨ic, cbl, tkl, cn, cfg⟩ := s
  have hic : ic = true := hconn
  have hcbl : cbl = [] := hidle
  have htkl : tkl = [] := htasks
  subst hic; subst hcbl; subst htkl
  have hexec := execCalls_from_idle host dom c rest ⟨true, [], [], cn, cfg⟩ f
    hconn hidle htasks hf hdom
  have hstate : (execCalls host dom (c :: rest) ⟨true, [], [], cn, cfg⟩).1 =
      (⟨true, (c :: rest).map Call.callback, rest.map mkTask, cn, cfg⟩ :
        InstanceState) := by
    rw [hexec]
  have hbal : (rest.map mkTask).length ≤ ((c :: rest).map Call.callback).length := by
    simp
  have hpump := pumpReturns_run host dom datas true
    ((c :: rest).map Call.callback) (rest.map mkTask) cn cfg f hf hdom hhost hd hbal
  refine ⟨hexec, ?_, ?_, ?_, ?_⟩
  · rw [hstate]
    exact hpump.2.1
  · rw [hstate, hpump.2.1]
    simpa using Nat.min_eq_left (by simpa using hlen)
  · rw [hstate, hpump.1]
  · rw [hstate]
    exact hpump.2.2

/-- First C1 witness call. -/
def callA : Call := ⟨"getFiles", .null, 1⟩

/-- Second C1 witness call. -/
def callB : Call := ⟨"getFolders", .null, 2⟩

/-- Third C1 witness call. -/
def callC : Call := ⟨"getList", .null, 3⟩

/-- Witness for `method_calls_fifo`: calls A, B, C on the idle connected
instance `stF`, followed by two method returns. -/
theorem method_calls_fifo_witness :
    stF.isConnected = true ∧ stF.callbacks = [] ∧ stF.tasks = [] ∧
    objGet stF.config "frameId" = .str "frame1" ∧ domAll "frame1" = true ∧
    (execCalls hostNone domAll [callA, callB, callC] stF =
      ({ stF with callbacks := [callA, callB, callC].map Call.callback,
                  tasks := [callB, callC].map mkTask },
       [.posted "frame1" (mkTask callA)], none)) ∧
    postedTasks (pumpReturns hostNone domAll [.obj [], .obj []]
        (execCalls hostNone domAll [callA, callB, callC] stF).1).2.1 =
      ([callB, callC].map mkTask).take 2 ∧
    (pumpReturns hostNone domAll [.obj [], .obj []]
        (execCalls hostNone domAll [callA, callB, callC] stF).1).1.tasks =
      ([callB, callC].map mkTask).drop 2 := by
  have h := method_calls_fifo hostNone domAll callA [callB, callC]
    [.obj [], .obj []] stF "frame1" rfl rfl rfl rfl rfl
    (fun _ _ => rfl)
    (by
      intro d hd
      cases hd with
      | head => rfl
      | tail _ h2 =>
        cases h2 with
        | head => rfl
        | tail _ h3 => cases h3)
    (by decide)
  exact ⟨rfl, rfl, rfl, rfl, rfl, h.1, h.2.1, h.2.2.2.1⟩

/-! ## Lifecycle lemmas -/

theorem assocGet_filter_ne {β : Type} (xs : List (String × β)) (k : String) :
    assocGet (xs.filter (fun p => p.1 != k)) k = none := by
  have h : (List.filter (fun p => p.1 != k) xs).reverse.find?
      (fun p => p.1 == k) = none := by
    rw [List.find?_eq_none]
    intro x hx
    have hx2 : x ∈ List.filter (fun p => p.1 != k) xs := by
      exact List.mem_reverse.mp hx
    have hkeep := List.of_mem_filter hx2
    simpa using hkeep
  unfold assocGet
  rw [h]

theorem destroyFrame_eq (s : InstanceState) (doc : Doc)
    (frames : List (String × Nat)) (la : Bool) (fid dt : String)
    (hfid : objGet s.config "frameId" = .str fid)
    (hdt : objGet s.config "destroyText" = .str dt) :
    destroyFrame s doc frames la =
      ⟨{ s with isConnected := false, callbacks := [], tasks := [] },
       (match doc.byId (fid ++ "-container") with
        | some _ => doc.replaceFirst (fid ++ "-container") ⟨fid, s.classNames, dt⟩
        | none => doc),
       frames.filter (fun p => p.1 != fid), false⟩ := by
  have hinner : (if (JSVal.str dt).truthy = true then dt else "") = dt := by
    by_cases h0 : dt = ""
    · simp [truthy, h0]
    · simp [truthy, h0]
  unfold destroyFrame
  rw [hfid, hdt]
  dsimp only [jsToString]
  rw [hinner]
  simp

/-- C8: after `destroyFrame`, the callback and task queues are empty, the
connection flag is false, the global message listener is detached, the
instance's entry is gone from the frames registry, and — when the frame's
container element is attached — the container has been replaced by a fresh
placeholder div carrying the cached original class name and the configured
destroy-text. -/
theorem destroyFrame_clears (s : InstanceState) (doc : Doc)
    (frames : List (String × Nat)) (la : Bool) (fid dt : String)
    (hfid : objGet s.config "frameId" = .str fid)
    (hdt : objGet s.config "destroyText" = .str dt) :
    (destroyFrame s doc frames la).state.callbacks = [] ∧
    (destroyFrame s doc frames la).state.tasks = [] ∧
    (destroyFrame s doc frames la).state.isConnected = false ∧
    (destroyFrame s doc frames la).listenerAttached = false ∧
    assocGet (destroyFrame s doc frames la).frames fid = none ∧
    (∀ cElem, doc.byId (fid ++ "-container") = some cElem →
      (destroyFrame s doc frames la).doc =
        doc.replaceFirst (fid ++ "-container") ⟨fid, s.classNames, dt⟩) := by
  rw [destroyFrame_eq s doc frames la fid dt hfid hdt]
  refine ⟨rfl, rfl, rfl, rfl, assocGet_filter_ne frames fid, ?_⟩
  intro cElem hc
  simp [hc]

/-- A configuration with a destroy-text, for the C8 witness. -/
def cfgD : JSVal := .obj [("frameId", .str "frame1"), ("destroyText", .str "bye")]

/-- A live instance for the C8 witness. -/
def stLive : InstanceState := ⟨true, [5], [taskPending], "orig-class", cfgD⟩

/-- The document holding the frame container, for the C8 witness. -/
def docLive : Doc := ⟨[⟨"frame1-container", "frame-container", ""⟩]⟩

/-- Witness for `destroyFrame_clears` on a live instance whose container is
attached. -/
theorem destroyFrame_clears_witness :
    objGet stLive.config "frameId" = .str "frame1" ∧
    objGet stLive.config "destroyText" = .str "bye" ∧
    (destroyFrame stLive docLive [("frame1", 0)] true).state.callbacks = [] ∧
    (destroyFrame stLive docLive [("frame1", 0)] true).state.tasks = [] ∧
    (destroyFrame stLive docLive [("frame1", 0)] true).state.isConnected = false ∧
    (destroyFrame stLive docLive [("frame1", 0)] true).listenerAttached = false ∧
    assocGet (destroyFrame stLive docLive [("frame1", 0)] true).frames "frame1" = none ∧
    (destroyFrame stLive docLive [("frame1", 0)] true).doc =
      docLive.replaceFirst ("frame1" ++ "-container")
        ⟨"frame1", stLive.classNames, "bye"⟩ := by
  have h := destroyFrame_clears stLive docLive [("frame1", 0)] true "frame1" "bye"
    rfl rfl
  exact ⟨rfl, rfl, h.1, h.2.1, h.2.2.1, h.2.2.2.1, h.2.2.2.2.1,
    h.2.2.2.2.2 ⟨"frame1-container", "frame-container", ""⟩ rfl⟩

/-! ## Registry lemmas -/

theorem getProp_of_lookup (cfg : JSVal) (k : String) (v : JSVal)
    (h : lookupField (spreadFields cfg) k = some v) :
    getProp cfg k = .ok v := by
  cases cfg with
  | obj fields =>
      have h2 : lookupField fields k = some v := h
      simp [getProp, h2]
  | null => simp [spreadFields, lookupField, List.find?] at h
  | undefined => simp [spreadFields, lookupField, List.find?] at h
  | bool b => simp [spreadFields, lookupField, List.find?] at h
  | num n => simp [spreadFields, lookupField, List.find?] at h
  | str s2 => simp [spreadFields, lookupField, List.find?] at h
  | fn tok => simp [spreadFields, lookupField, List.find?] at h
  | arr xs => simp [spreadFields, lookupField, List.find?] at h

theorem assocGet_set_eq {β : Type} (xs : List (Nat × β)) (k : Nat) (v : β) :
    assocGet (assocSet xs k v) k = some v := by
  unfold assocGet assocSet
  rw [List.reverse_append]
  simp [List.find?]

theorem assocGet_set_ne {β : Type} (xs : List (Nat × β)) (k j : Nat) (v : β)
    (h : j ≠ k) :
    assocGet (assocSet xs k v) j = assocGet xs j := by
  unfold assocGet assocSet
  rw [List.reverse_append]
  have hne : (k == j) = false := by
    simpa using fun he => h he.symm
  simp [List.find?, hne]

theorem initFrame_config (selfId : Nat) (s : InstanceState) (doc : Doc)
    (frames : List (String × Nat)) (cfg : JSVal) :
    (initFrame selfId s doc frames cfg).state.config =
      prepareFrameConfig s.config cfg := by
  unfold initFrame
  dsimp only
  rcases hsc : setupContainer { s with config := prepareFrameConfig s.config cfg }
      doc (jsToString (objGet (prepareFrameConfig s.config cfg) "frameId")) with
    ⟨ores, doc2, cn⟩
  cases ores with
  | none => rfl
  | some pr =>
      rcases pr with ⟨container, target⟩
      rfl

theorem prepareFrameConfig_frameId (prev cfg : JSVal) (f : String)
    (hf : lookupField (spreadFields cfg) "frameId" = some (.str f)) :
    objGet (prepareFrameConfig prev cfg) "frameId" = .str f := by
  rw [prepareFrameConfig_getKey prev cfg "frameId" (by decide)]
  unfold mergeValue
  rw [hf]

theorem find?_update (xs : List Nat) (p q : Nat → Bool) (i : Nat)
    (hfind : xs.find? p = some i) (hq : ∀ j, j ≠ i → q j = p j)
    (hqi : q i = true) :
    xs.find? q = some i := by
  induction xs with
  | nil => simp at hfind
  | cons a l ih =>
    by_cases ha : a = i
    · subst ha
      rw [List.find?_cons_of_pos _ hqi]
    · have hpa : p a = false := by
        cases hpa : p a
        · rfl
        · rw [List.find?_cons_of_pos _ hpa] at hfind
          exact absurd (Option.some.inj hfind) ha
      have hqa : q a = false := by rw [hq a ha]; exact hpa
      rw [List.find?_cons_of_neg _ (by simp [hpa])] at hfind
      rw [List.find?_cons_of_neg _ (by simp [hqa])]
      exact ih hfind

theorem SDK.init_create (cfg : JSVal) (w : SDKState) (doc : Doc) (f : String)
    (hf : lookupField (spreadFields cfg) "frameId" = some (.str f))
    (hno : w.instances.find? (fun i =>
      match assocGet w.states i with
      | some st => strictEq (objGet st.config "frameId") (.str f)
      | none => false) = none) :
    SDK.init cfg w doc =
      .ok (w.nextId,
           { w with nextId := w.nextId + 1,
                    instances := w.instances ++ [w.nextId],
                    states := assocSet w.states w.nextId
                      (initFrame w.nextId ⟨false, [], [], "", cfg⟩ doc
                        w.frames cfg).state,
                    frames := (initFrame w.nextId ⟨false, [], [], "", cfg⟩ doc
                      w.frames cfg).frames,
                    trace := w.trace ++ [(w.nextId, cfg)] },
           (initFrame w.nextId ⟨false, [], [], "", cfg⟩ doc w.frames cfg).doc) := by
  unfold SDK.init
  cases hins : w.instances with
  | nil => dsimp only
  | cons a l =>
      rw [getProp_of_lookup cfg "frameId" (.str f) hf]
      rw [hins] at hno
      dsimp only
      rw [hno]

theorem SDK.init_found (cfg : JSVal) (w : SDKState) (doc : Doc) (f : String)
    (i : Nat) (st : InstanceState)
    (hf : lookupField (spreadFields cfg) "frameId" = some (.str f))
    (hfound : w.instances.find? (fun j =>
      match assocGet w.states j with
      | some st => strictEq (objGet st.config "frameId") (.str f)
      | none => false) = some i)
    (hst : assocGet w.states i = some st) :
    SDK.init cfg w doc =
      .ok (i,
           { w with states := assocSet w.states i
                      (initFrame i st doc w.frames cfg).state,
                    frames := (initFrame i st doc w.frames cfg).frames,
                    trace := w.trace ++ [(i, cfg)] },
           (initFrame i st doc w.frames cfg).doc) := by
  unfold SDK.init
  cases hins : w.instances with
  | nil =>
      rw [hins] at hfound
      simp at hfound
  | cons a l =>
      rw [getProp_of_lookup cfg "frameId" (.str f) hf]
      rw [hins] at hfound
      dsimp only
      rw [hfound]
      dsimp only
      rw [hst]

/-- C9: two Registry `init` calls whose configurations carry the same
`frameId` return the same instance identity (the second call hands back the
first call's instance rather than creating a second one), the instances
list does not grow on the second call, and `initFrame` is invoked on that
instance with the supplied (latest) configuration by both calls. -/
theorem sdk_init_reuses_instance (w : SDKState) (doc : Doc) (cfg1 cfg2 : JSVal)
    (f : String) (i : Nat) (w1 : SDKState) (doc1 : Doc)
    (hf1 : lookupField (spreadFields cfg1) "frameId" = some (.str f))
    (hf2 : lookupField (spreadFields cfg2) "frameId" = some (.str f))
    (hfresh : ∀ j ∈ w.instances, j < w.nextId)
    (h1 : SDK.init cfg1 w doc = .ok (i, w1, doc1)) :
    ∃ w2 doc2,
      SDK.init cfg2 w1 doc1 = .ok (i, w2, doc2) ∧
      w2.instances = w1.instances ∧
      w1.trace = w.trace ++ [(i, cfg1)] ∧
      w2.trace = w1.trace ++ [(i, cfg2)] := by
  cases hfound : w.instances.find? (fun j =>
      match assocGet w.states j with
      | some st => strictEq (objGet st.config "frameId") (.str f)
      | none => false) with
  | some i0 =>
    have hpred := List.find?_some hfound
    obtain ⟨st, hst⟩ : ∃ st, assocGet w.states i0 = some st := by
      cases hget : assocGet w.states i0 with
      | none => rw [hget] at hpred; simp at hpred
      | some st => exact ⟨st, rfl⟩
    set r1 : InitResult := initFrame i0 st doc w.frames cfg1 with hr1
    have hred := SDK.init_found cfg1 w doc f i0 st hf1 hfound hst
    rw [hred] at h1
    have h2 := Except.ok.inj h1
    have hi : i0 = i := congrArg Prod.fst h2
    subst hi
    have hw := congrArg (fun x : Nat × SDKState × Doc => x.2.1) h2
    have hd := congrArg (fun x : Nat × SDKState × Doc => x.2.2) h2
    (try dsimp only at hw hd)
    rw [← hw, ← hd]
    have hconf : objGet (r1.state.config) "frameId" = .str f := by
      rw [hr1, initFrame_config]
      exact prepareFrameConfig_frameId st.config cfg1 f hf1
    have hqi : (match assocGet (assocSet w.states i0 r1.state) i0 with
        | some st2 => strictEq (objGet st2.config "frameId") (.str f)
        | none => false) = true := by
      rw [assocGet_set_eq]
      dsimp only
      rw [hconf]
      simp [strictEq]
    have hfound2 : w.instances.find? (fun j =>
        match assocGet (assocSet w.states i0 r1.state) j with
        | some st2 => strictEq (objGet st2.config "frameId") (.str f)
        | none => false) = some i0 := by
      apply find?_update w.instances _ _ i0 hfound _ hqi
      intro j hj
      dsimp only
      rw [assocGet_set_ne w.states i0 j _ hj]
    have hred2 := SDK.init_found cfg2
      { w with states := assocSet w.states i0 r1.state,
               frames := r1.frames,
               trace := w.trace ++ [(i0, cfg1)] }
      r1.doc f i0 r1.state hf2 hfound2
      (assocGet_set_eq w.states i0 r1.state)
    exact ⟨_, _, hred2, rfl, rfl, rfl⟩
  | none =>
    set r1 : InitResult :=
      initFrame w.nextId ⟨false, [], [], "", cfg1⟩ doc w.frames cfg1 with hr1
    have hred := SDK.init_create cfg1 w doc f hf1 hfound
    rw [hred] at h1
    have h2 := Except.ok.inj h1
    have hi : w.nextId = i := congrArg Prod.fst h2
    have hw := congrArg (fun x : Nat × SDKState × Doc => x.2.1) h2
    have hd := congrArg (fun x : Nat × SDKState × Doc => x.2.2) h2
    (try dsimp only at hw hd)
    rw [← hi, ← hw, ← hd]
    have hconf : objGet (r1.state.config) "frameId" = .str f := by
      rw [hr1, initFrame_config]
      exact prepareFrameConfig_frameId _ cfg1 f hf1
    have hqi : (match assocGet (assocSet w.states w.nextId r1.state) w.nextId with
        | some st2 => strictEq (objGet st2.config "frameId") (.str f)
        | none => false) = true := by
      rw [assocGet_set_eq]
      dsimp only
      rw [hconf]
      simp [strictEq]
    have hfound2 : (w.instances ++ [w.nextId]).find? (fun j =>
        match assocGet (assocSet w.states w.nextId r1.state) j with
        | some st2 => strictEq (objGet st2.config "frameId") (.str f)
        | none => false) = some w.nextId := by
      rw [List.find?_append]
      have hnone : w.instances.find? (fun j =>
          match assocGet (assocSet w.states w.nextId r1.state) j with
          | some st2 => strictEq (objGet st2.config "frameId") (.str f)
          | none => false) = none := by
        rw [List.find?_eq_none]
        intro j hj
        have hjne : j ≠ w.nextId := Nat.ne_of_lt (hfresh j hj)
        have hpj := List.find?_eq_none.mp hfound j hj
        rw [assocGet_set_ne w.states w.nextId j _ hjne]
        simpa using hpj
      rw [hnone, Option.none_or]
      have hqi2 : (fun j =>
          match assocGet (assocSet w.states w.nextId r1.state) j with
          | some st2 => strictEq (objGet st2.config "frameId") (.str f)
          | none => false) w.nextId = true := hqi
      exact List.find?_cons_of_pos _ hqi2
    have hred2 := SDK.init_found cfg2
      { w with nextId := w.nextId + 1,
               instances := w.instances ++ [w.nextId],
               states := assocSet w.states w.nextId r1.state,
               frames := r1.frames,
               trace := w.trace ++ [(w.nextId, cfg1)] }
      r1.doc f w.nextId r1.state hf2 hfound2
      (assocGet_set_eq w.states w.nextId r1.state)
    exact ⟨_, _, hred2, rfl, rfl, rfl⟩

/-- A freshly constructed registry (`new SDK()`). -/
def sdkEmpty : SDKState := ⟨0, [], [], [], []⟩

/-- A document with no placeholder elements. -/
def docEmpty : Doc := ⟨[]⟩

/-- First configuration of the registry witnesses. -/
def cfg9a : JSVal := .obj [("frameId", .str "f1"), ("theme", .str "dark")]

/-- Second configuration of the registry witnesses (same `frameId`). -/
def cfg9b : JSVal := .obj [("frameId", .str "f1")]

/-- The registry state after the first `init` of the C9 witness. -/
def w9b : SDKState :=
  ⟨1, [0], [(0, (initFrame 0 ⟨false, [], [], "", cfg9a⟩ docEmpty [] cfg9a).state)],
   [], [(0, cfg9a)]⟩

/-- Witness for `sdk_init_reuses_instance` on an initially empty registry. -/
theorem sdk_init_reuses_instance_witness :
    lookupField (spreadFields cfg9a) "frameId" = some (.str "f1") ∧
    lookupField (spreadFields cfg9b) "frameId" = some (.str "f1") ∧
    (∀ j ∈ sdkEmpty.instances, j < sdkEmpty.nextId) ∧
    (∃ w2 doc2,
      SDK.init cfg9b w9b docEmpty = .ok (0, w2, doc2) ∧
      w2.instances = w9b.instances ∧
      w9b.trace = sdkEmpty.trace ++ [(0, cfg9a)] ∧
      w2.trace = w9b.trace ++ [(0, cfg9b)]) := by
  refine ⟨rfl, rfl, ?_, ?_⟩
  · intro j hj
    cases hj
  · exact sdk_init_reuses_instance sdkEmpty docEmpty cfg9a cfg9b "f1" 0 w9b
      docEmpty rfl rfl (fun j hj => by cases hj) rfl

theorem initFrame_fail (selfId : Nat) (s : InstanceState) (doc : Doc)
    (frames : List (String × Nat)) (cfg : JSVal) (f : String)
    (hf : lookupField (spreadFields cfg) "frameId" = some (.str f))
    (hdoc : doc.byId f = none) :
    initFrame selfId s doc frames cfg =
      ⟨none, { s with config := prepareFrameConfig s.config cfg }, doc, frames⟩ := by
  unfold initFrame
  dsimp only
  rw [prepareFrameConfig_frameId s.config cfg f hf]
  dsimp only [jsToString]
  unfold setupContainer
  simp only [setupContainerFuel]
  rw [hdoc]

/-- C10: when a configuration's `frameId` matches no placeholder element,
`initFrame` returns `null`, yet the Registry's `init` still constructs a
new `SDKInstance`, appends it to the instances list, records the `initFrame`
invocation, and returns that instance — the result never reflects the
`initFrame` failure. -/
theorem sdk_init_ignores_initFrame_failure (w : SDKState) (doc : Doc)
    (cfg : JSVal) (f : String)
    (hf : lookupField (spreadFields cfg) "frameId" = some (.str f))
    (hno : w.instances.find? (fun i =>
      match assocGet w.states i with
      | some st => strictEq (objGet st.config "frameId") (.str f)
      | none => false) = none)
    (hdoc : doc.byId f = none) :
    (initFrame w.nextId ⟨false, [], [], "", cfg⟩ doc w.frames cfg).iframe = none ∧
    SDK.init cfg w doc =
      .ok (w.nextId,
           { w with nextId := w.nextId + 1,
                    instances := w.instances ++ [w.nextId],
                    states := assocSet w.states w.nextId
                      ⟨false, [], [], "", prepareFrameConfig cfg cfg⟩,
                    frames := w.frames,
                    trace := w.trace ++ [(w.nextId, cfg)] },
           doc) := by
  have hfail := initFrame_fail w.nextId ⟨false, [], [], "", cfg⟩ doc w.frames cfg
    f hf hdoc
  constructor
  · rw [hfail]
  · rw [SDK.init_create cfg w doc f hf hno, hfail]

/-- The configuration of the C10 witness, matching no placeholder. -/
def cfg10 : JSVal := .obj [("frameId", .str "nowhere")]

/-- Witness for `sdk_init_ignores_initFrame_failure` on the empty registry
and an empty document. -/
theorem sdk_init_ignores_initFrame_failure_witness :
    lookupField (spreadFields cfg10) "frameId" = some (.str "nowhere") ∧
    docEmpty.byId "nowhere" = none ∧
    (initFrame sdkEmpty.nextId ⟨false, [], [], "", cfg10⟩ docEmpty
      sdkEmpty.frames cfg10).iframe = none ∧
    SDK.init cfg10 sdkEmpty docEmpty =
      .ok (sdkEmpty.nextId,
           { sdkEmpty with nextId := sdkEmpty.nextId + 1,
                           instances := sdkEmpty.instances ++ [sdkEmpty.nextId],
                           states := assocSet sdkEmpty.states sdkEmpty.nextId
                             ⟨false, [], [], "", prepareFrameConfig cfg10 cfg10⟩,
                           frames := sdkEmpty.frames,
                           trace := sdkEmpty.trace ++ [(sdkEmpty.nextId, cfg10)] },
           docEmpty) := by
  have h := sdk_init_ignores_initFrame_failure sdkEmpty docEmpty cfg10 "nowhere"
    rfl rfl rfl
  exact ⟨rfl, rfl, h.1, h.2⟩

end DocSpace
